import Mathlib

/-!
Shallow embedding of the schedule validator in `run_scheduler_check.py`.

An appointment row carries `PATIENT_MRN`, `SCHEDULER_ID`, `APPT_TYPE` and
`APPT_DTTM`.  Timestamps are modelled as integers counting minutes, so that
`datetime.date()` becomes the floor quotient by 1440 (minutes per day),
`timedelta(days = w)` becomes `w * 1440`, and subtraction of two dates in
days becomes subtraction of the day numbers.  Comparison of two timestamps
is integer comparison, exactly as pandas compares `APPT_DTTM` values.

The violation messages built by the Python f-strings are modelled by an
inductive type `Violation` with one constructor per format string, carrying the
interpolated calendar dates.  The six format strings have pairwise distinct
fixed prefixes and render the dates at fixed positions, so two messages are
equal as strings exactly when they come from the same constructor with the
same dates; `list(set(flags))` is therefore modelled by `List.dedup`.
-/

/-- One row of the appointment table: `PATIENT_MRN`, `SCHEDULER_ID`,
`APPT_TYPE`, `APPT_DTTM` (in minutes). -/
structure Appt where
  mrn : Nat
  scheduler : String
  ty : String
  time : Int
deriving DecidableEq, Repr

/-- Calendar date of a timestamp, as a day number: `datetime.date()` for a
time measured in minutes.  `Int` division is Euclidean, which is floor
division for the positive divisor 1440. -/
def dateOf (t : Int) : Int := t / 1440

/-- The violation messages of `check_patient_schedule`, one constructor per
f-string, carrying the interpolated dates. -/
inductive Violation where
  | chemoNoLab (chemoDate : Int)
  | labAfterChemo (labDate chemoDate : Int)
  | labSameDay (labDate chemoDate : Int)
  | visitBeforeMammo (visitDate mammoDate : Int)
  | visitTooSoon (visitDate mammoDate : Int)
  | radBeforeSim (radDate simDate : Int)
deriving DecidableEq, Repr

/-- The row filter inside `find_related_appointment`: matching `APPT_TYPE`
and `APPT_DTTM` within the closed window `[base - w days, base + w days]`
(source lines 13-20). -/
def isCandidate (ty : String) (base : Int) (w : Nat) (a : Appt) : Bool :=
  a.ty == ty && decide (base - (w : Int) * 1440 ≤ a.time)
    && decide (a.time ≤ base + (w : Int) * 1440)

/-- `find_related_appointment(df, appt_type, base_time, time_window_days)`:
filter the rows by type and closed time window and return the `APPT_DTTM`
of the first remaining row (`.iloc[0]`), or `None` when the filtered frame
is empty (source lines 8-24). -/
def find_related_appointment (df : List Appt) (ty : String) (base : Int)
    (w : Nat) : Option Int :=
  ((df.filter (isCandidate ty base w)).head?).map (·.time)

/-- Ordering of appointments by `APPT_DTTM`, used by
`sort_values('APPT_DTTM')`. -/
def apptLE (a b : Appt) : Prop := a.time ≤ b.time

instance : DecidableRel apptLE := fun a b =>
  inferInstanceAs (Decidable (a.time ≤ b.time))

instance : IsTotal Appt apptLE := ⟨fun a b => Int.le_total a.time b.time⟩

instance : IsTrans Appt apptLE := ⟨fun _ _ _ h h' => le_trans h h'⟩

/-- `patient_appts.sort_values('APPT_DTTM')` (source line 34): an ascending
sort by timestamp.  pandas does not promise stability for ties, but every
value the rule loop reads from the sorted frame is insensitive to the order
of equal timestamps (proved below), so any ascending sort is a faithful
model. -/
def sortAppts (l : List Appt) : List Appt := List.insertionSort apptLE l

/-- The `Chemo` rule (source lines 42-50). -/
def chemoCheck (df : List Appt) (a : Appt) : List Violation :=
  if a.ty == "Chemo" then
    match find_related_appointment df "Lab" a.time 7 with
    | none => [Violation.chemoNoLab (dateOf a.time)]
    | some labT =>
      if labT > a.time then
        [Violation.labAfterChemo (dateOf labT) (dateOf a.time)]
      else if dateOf a.time - dateOf labT < 1 then
        [Violation.labSameDay (dateOf labT) (dateOf a.time)]
      else []
  else []

/-- The `Oncology Visit` rule (source lines 53-58): `if mammo_time and
mammo_time > appt_time` then the order error, `elif mammo_time and
(gap in days) < 2` then the timing error. -/
def visitCheck (df : List Appt) (a : Appt) : List Violation :=
  if a.ty == "Oncology Visit" then
    match find_related_appointment df "Mammogram" a.time 14 with
    | none => []
    | some mamT =>
      if mamT > a.time then
        [Violation.visitBeforeMammo (dateOf a.time) (dateOf mamT)]
      else if dateOf a.time - dateOf mamT < 2 then
        [Violation.visitTooSoon (dateOf a.time) (dateOf mamT)]
      else []
  else []

/-- The `Radiation Therapy` rule (source lines 61-64). -/
def radCheck (df : List Appt) (a : Appt) : List Violation :=
  if a.ty == "Radiation Therapy" then
    match find_related_appointment df "CT Simulation" a.time 14 with
    | none => []
    | some simT =>
      if simT > a.time then
        [Violation.radBeforeSim (dateOf a.time) (dateOf simT)]
      else []
  else []

/-- One iteration of the rule loop of `check_patient_schedule` (source
lines 37-64): the flags appended for the row `a`, with `df` the sorted
frame the lookups run over. -/
def checkAppt (df : List Appt) (a : Appt) : List Violation :=
  chemoCheck df a ++ visitCheck df a ++ radCheck df a

/-- `check_patient_schedule(patient_appts)` (source lines 26-66): sort by
timestamp, run the rule loop over every row, and return the unique flags
(`list(set(flags))`, modelled by `dedup`). -/
def check_patient_schedule (l : List Appt) : List Violation :=
  ((sortAppts l).flatMap (checkAppt (sortAppts l))).dedup

/-- The lookahead filter of the batch scan (source line 104):
`now <= APPT_DTTM <= now + horizon days`, both bounds inclusive. -/
def inWindow (today : Int) (horizonDays : Nat) (a : Appt) : Bool :=
  decide (today ≤ a.time) && decide (a.time ≤ today + (horizonDays : Int) * 1440)

/-- The batch scan of `__main__` (source lines 101-126): filter to the
lookahead window, group by `PATIENT_MRN` (pandas `groupby` iterates the
distinct keys in ascending order, each group keeping the original row
order), validate each group, and record `(mrn, scheduler_id, flags)` for
each patient with a non-empty flag list, the scheduler id read off the
group's first row (`.iloc[0]`).  The early `exit()` on an empty filtered
frame produces no records, exactly as the loop would. -/
def batch_scan (df_all : List Appt) (today : Int) (horizonDays : Nat) :
    List (Nat × String × List Violation) :=
  let dfF := df_all.filter (inWindow today horizonDays)
  let mrns := List.insertionSort (· ≤ ·) (dfF.map Appt.mrn).dedup
  mrns.filterMap fun m =>
    let appts := dfF.filter (fun a => a.mrn == m)
    let fl := check_patient_schedule appts
    if fl.isEmpty then none
    else some (m, (appts.head?.map Appt.scheduler).getD "", fl)

/-! Basic facts about `dateOf`. -/

theorem dateOf_bounds (t : Int) :
    1440 * dateOf t ≤ t ∧ t < 1440 * dateOf t + 1440 := by
  have h1 := Int.ediv_add_emod t 1440
  have h2 := Int.emod_nonneg t (by decide : (1440 : Int) ≠ 0)
  have h3 := Int.emod_lt_of_pos t (by decide : (0 : Int) < 1440)
  unfold dateOf
  omega

theorem dateOf_mono {t1 t2 : Int} (h : t1 ≤ t2) : dateOf t1 ≤ dateOf t2 := by
  have b1 := dateOf_bounds t1
  have b2 := dateOf_bounds t2
  by_contra hc
  push_neg at hc
  omega

theorem sameDate_gap_lt {t1 t2 : Int} (h : dateOf t1 = dateOf t2) :
    t2 - t1 < 1440 ∧ t1 - t2 < 1440 := by
  have b1 := dateOf_bounds t1
  have b2 := dateOf_bounds t2
  omega

/-! Helper lemmas about the windowed lookup. -/

theorem isCandidate_iff (ty : String) (base : Int) (w : Nat) (a : Appt) :
    isCandidate ty base w a = true ↔
      a.ty = ty ∧ base - (w : Int) * 1440 ≤ a.time ∧
        a.time ≤ base + (w : Int) * 1440 := by
  simp [isCandidate, and_assoc]

theorem head?_filter {α : Type} (p : α → Bool) (l : List α) :
    (l.filter p).head? = l.find? p := by
  induction l with
  | nil => rfl
  | cons a t ih =>
    by_cases h : p a <;> simp [List.filter_cons, List.find?_cons, h, ih]

theorem find_related_eq_find? (df : List Appt) (ty : String) (base : Int)
    (w : Nat) :
    find_related_appointment df ty base w
      = (df.find? (isCandidate ty base w)).map (·.time) := by
  rw [find_related_appointment, head?_filter]

theorem find_related_eq_none_iff (df : List Appt) (ty : String) (base : Int)
    (w : Nat) :
    find_related_appointment df ty base w = none ↔
      ∀ a ∈ df, ¬ (a.ty = ty ∧ base - (w : Int) * 1440 ≤ a.time ∧
        a.time ≤ base + (w : Int) * 1440) := by
  rw [find_related_appointment]
  simp only [Option.map_eq_none', List.head?_eq_none_iff, List.filter_eq_nil_iff]
  constructor
  · intro h a ha hc
    exact h a ha ((isCandidate_iff ty base w a).mpr hc)
  · intro h a ha hc
    exact h a ha ((isCandidate_iff ty base w a).mp hc)

theorem find_related_mem (df : List Appt) (ty : String) (base : Int) (w : Nat)
    (t : Int) (h : find_related_appointment df ty base w = some t) :
    ∃ a ∈ df, a.ty = ty ∧ base - (w : Int) * 1440 ≤ a.time ∧
      a.time ≤ base + (w : Int) * 1440 ∧ a.time = t := by
  rw [find_related_eq_find?] at h
  obtain ⟨a, ha, hat⟩ := Option.map_eq_some'.mp h
  have hmem := List.mem_of_find?_eq_some ha
  have hc := (isCandidate_iff ty base w a).mp (List.find?_some ha)
  exact ⟨a, hmem, hc.1, hc.2.1, hc.2.2, hat⟩

/-! The value `find_related_appointment` returns from a frame sorted
ascending by `APPT_DTTM` depends only on the multiset of rows: any two
sorted permutations of the same rows give equal results.  This is why an
unstable `sort_values` is harmless inside `check_patient_schedule`. -/

theorem head?_time_eq_of_perm_sorted {l1 l2 : List Appt} (hp : l1.Perm l2)
    (h1 : l1.Sorted apptLE) (h2 : l2.Sorted apptLE) :
    l1.head?.map (·.time) = l2.head?.map (·.time) := by
  match l1, l2 with
  | [], [] => rfl
  | [], b :: t2 => exact absurd (List.Perm.eq_nil hp.symm) (by simp)
  | a :: t1, [] => exact absurd (List.Perm.eq_nil hp) (by simp)
  | a :: t1, b :: t2 =>
    have ha : a ∈ b :: t2 := hp.mem_iff.mp (List.mem_cons_self a t1)
    have hb : b ∈ a :: t1 := hp.mem_iff.mpr (List.mem_cons_self b t2)
    have hab : a.time = b.time := by
      rcases List.mem_cons.mp ha with h | h
      · rw [h]
      · rcases List.mem_cons.mp hb with h' | h'
        · rw [h']
        · have hba : b.time ≤ a.time := (List.sorted_cons.mp h2).1 a h
          have hab2 : a.time ≤ b.time := (List.sorted_cons.mp h1).1 b h'
          exact le_antisymm hab2 hba
    simp [hab]

theorem find_related_congr_of_perm_sorted {s1 s2 : List Appt}
    (hp : s1.Perm s2) (h1 : s1.Sorted apptLE) (h2 : s2.Sorted apptLE)
    (ty : String) (base : Int) (w : Nat) :
    find_related_appointment s1 ty base w
      = find_related_appointment s2 ty base w := by
  unfold find_related_appointment
  exact head?_time_eq_of_perm_sorted (hp.filter _)
    (h1.filter _) (h2.filter _)

theorem checkAppt_congr_of_perm_sorted {s1 s2 : List Appt}
    (hp : s1.Perm s2) (h1 : s1.Sorted apptLE) (h2 : s2.Sorted apptLE)
    (a : Appt) : checkAppt s1 a = checkAppt s2 a := by
  unfold checkAppt chemoCheck visitCheck radCheck
  rw [find_related_congr_of_perm_sorted hp h1 h2 "Lab" a.time 7,
    find_related_congr_of_perm_sorted hp h1 h2 "Mammogram" a.time 14,
    find_related_congr_of_perm_sorted hp h1 h2 "CT Simulation" a.time 14]

theorem sortAppts_perm (l : List Appt) : (sortAppts l).Perm l :=
  List.perm_insertionSort apptLE l

theorem sortAppts_sorted (l : List Appt) : (sortAppts l).Sorted apptLE :=
  List.sorted_insertionSort apptLE l

theorem check_patient_schedule_perm_flatMap {l l' : List Appt}
    (hp : l.Perm l') :
    ((sortAppts l).flatMap (checkAppt (sortAppts l))).Perm
      ((sortAppts l').flatMap (checkAppt (sortAppts l'))) := by
  have hs : (sortAppts l).Perm (sortAppts l') :=
    (sortAppts_perm l).trans (hp.trans (sortAppts_perm l').symm)
  have hfun : ∀ a, checkAppt (sortAppts l) a = checkAppt (sortAppts l') a :=
    checkAppt_congr_of_perm_sorted hs (sortAppts_sorted l) (sortAppts_sorted l')
  have hstep : ((sortAppts l).flatMap (checkAppt (sortAppts l))).Perm
      ((sortAppts l').flatMap (checkAppt (sortAppts l))) :=
    hs.flatMap_right _
  have heq : (sortAppts l').flatMap (checkAppt (sortAppts l))
      = (sortAppts l').flatMap (checkAppt (sortAppts l')) := by
    rw [funext hfun]
  exact heq ▸ hstep

/-! Claim theorems. -/

/-- C7: `check_patient_schedule` is a total function of its input — it is
defined by structural recursion with no partiality, failure, or exception
anywhere in the model — and on an empty appointment set it returns an
empty flag collection. -/
theorem check_patient_schedule_empty : check_patient_schedule [] = [] := rfl

/-- C9: the flag collection returned by `check_patient_schedule` never
contains a duplicate message: `list(set(flags))` de-duplicates, so every
message appears at most once. -/
theorem check_patient_schedule_nodup (l : List Appt) :
    (check_patient_schedule l).Nodup :=
  List.nodup_dedup _

/-- C8: the set of flags returned by `check_patient_schedule` depends only
on the multiset of appointment rows: any permutation of the input rows
yields the same set of flags (and a repeated run on the same rows is the
permutation-by-identity case). -/
theorem check_patient_schedule_perm_invariant {l l' : List Appt}
    (hp : l.Perm l') :
    (check_patient_schedule l).toFinset
      = (check_patient_schedule l').toFinset := by
  have hflat := check_patient_schedule_perm_flatMap hp
  ext f
  simp only [List.mem_toFinset, check_patient_schedule, List.mem_dedup]
  exact hflat.mem_iff

/-- Witness for C8 at a concrete pair of row orders: swapping a Lab and a
Chemo row leaves the flag set unchanged. -/
theorem check_patient_schedule_perm_invariant_witness :
    (check_patient_schedule
        [⟨5, "s", "Lab", 540⟩, ⟨5, "s", "Chemo", 840⟩]).toFinset
      = (check_patient_schedule
        [⟨5, "s", "Chemo", 840⟩, ⟨5, "s", "Lab", 540⟩]).toFinset :=
  check_patient_schedule_perm_invariant (List.Perm.swap _ _ [])

/-- C5: two-run noninterference of the out-of-window rows.  Any two full
appointment tables with the same in-window rows (rows with
`now <= APPT_DTTM <= now + horizon`, both bounds inclusive) produce the
same batch-scan output for every patient: rows dated strictly before `now`
or strictly after `now + horizon` never appear in, and never influence,
any computed flag. -/
theorem batch_scan_noninterference {df1 df2 : List Appt} {today : Int}
    {horizonDays : Nat}
    (hfil : df1.filter (inWindow today horizonDays)
      = df2.filter (inWindow today horizonDays)) :
    batch_scan df1 today horizonDays = batch_scan df2 today horizonDays := by
  unfold batch_scan
  rw [hfil]

/-- Witness for C5: deleting an out-of-window Lab row (dated before `now`)
leaves the scan output unchanged, even though that Lab would have
suppressed the Chemo flag had it been in the window. -/
theorem batch_scan_noninterference_witness :
    batch_scan [⟨5, "s", "Chemo", 720⟩, ⟨5, "s", "Lab", -1440⟩] 0 2
      = batch_scan [⟨5, "s", "Chemo", 720⟩] 0 2 :=
  batch_scan_noninterference (by decide)

theorem mem_mrns_iff (dfF : List Appt) (m : Nat) :
    m ∈ List.insertionSort (· ≤ ·) (dfF.map Appt.mrn).dedup ↔
      ∃ a ∈ dfF, a.mrn = m := by
  rw [(List.perm_insertionSort _ _).mem_iff, List.mem_dedup, List.mem_map]

/-- C6: characterization of the batch scan.  A record `(m, s, fl)` is
produced exactly when `fl` is the non-empty flag list computed by
`check_patient_schedule` on patient `m`'s rows of the window-filtered
table (both window bounds inclusive, per `inWindow`), and `s` is the
`SCHEDULER_ID` of the first-encountered row of that patient in the
filtered table. -/
theorem batch_scan_mem_spec (df : List Appt) (today : Int)
    (horizonDays : Nat) (m : Nat) (s : String) (fl : List Violation) :
    (m, s, fl) ∈ batch_scan df today horizonDays ↔
      fl = check_patient_schedule
          ((df.filter (inWindow today horizonDays)).filter
            (fun a => a.mrn == m)) ∧
      fl ≠ [] ∧
      ∃ a, (df.filter (inWindow today horizonDays)).find?
          (fun b => b.mrn == m) = some a ∧ s = a.scheduler := by
  set dfF := df.filter (inWindow today horizonDays) with hdfF
  constructor
  · intro hmem
    simp only [batch_scan, List.mem_filterMap, ← hdfF] at hmem
    obtain ⟨m', hm', hsome⟩ := hmem
    split at hsome
    · exact absurd hsome (by simp)
    · next hne =>
      simp only [Option.some.injEq, Prod.mk.injEq] at hsome
      obtain ⟨hm, hsched, hfl⟩ := hsome
      subst hm
      refine ⟨hfl.symm, ?_, ?_⟩
      · intro h0
        rw [h0] at hfl
        rw [hfl] at hne
        exact hne rfl
      · obtain ⟨b, hb, hbm⟩ := (mem_mrns_iff dfF m').mp hm'
        have hfs : ((dfF.find? (fun x => x.mrn == m')).isSome) = true :=
          List.find?_isSome.mpr ⟨b, hb, by simp [hbm]⟩
        obtain ⟨c, hc⟩ := Option.isSome_iff_exists.mp hfs
        refine ⟨c, hc, ?_⟩
        rw [← hsched, head?_filter, hc]
        rfl
  · rintro ⟨hfl, hne, b, hfind, hs⟩
    have hb : b ∈ dfF := List.mem_of_find?_eq_some hfind
    have hbm : b.mrn = m := by
      have := List.find?_some hfind
      simpa using this
    simp only [batch_scan, List.mem_filterMap, ← hdfF]
    refine ⟨m, (mem_mrns_iff dfF m).mpr ⟨b, hb, hbm⟩, ?_⟩
    rw [if_neg ?_]
    · rw [head?_filter, hfind]
      simp [← hfl, hs]
    · rw [← hfl]
      simpa [List.isEmpty_iff] using hne

/-- Witness for C6: one Chemo row in the window, no Lab anywhere, produces
the record for patient 5 with the no-Lab flag attributed to scheduler
`s`. -/
theorem batch_scan_mem_spec_witness :
    (5, "s", [Violation.chemoNoLab 0]) ∈
      batch_scan [⟨5, "s", "Chemo", 720⟩] 0 2 :=
  (batch_scan_mem_spec [⟨5, "s", "Chemo", 720⟩] 0 2 5 "s"
      [Violation.chemoNoLab 0]).mpr
    ⟨by decide, by decide, ⟨5, "s", "Chemo", 720⟩, by decide, rfl⟩

/-- C3: a Chemo appointment with no Lab appointment anywhere in the
patient's set within 7 days in either direction contributes exactly the
no-Lab critical flag — and neither the order flag nor the same-day flag —
and that flag is in the returned set. -/
theorem chemo_no_lab_flag {l : List Appt} {a : Appt} (hmem : a ∈ l)
    (hty : a.ty = "Chemo")
    (hnolab : ∀ b ∈ l, b.ty = "Lab" →
      b.time < a.time - 7 * 1440 ∨ a.time + 7 * 1440 < b.time) :
    checkAppt (sortAppts l) a = [Violation.chemoNoLab (dateOf a.time)] ∧
      Violation.chemoNoLab (dateOf a.time) ∈ check_patient_schedule l := by
  have hnone : find_related_appointment (sortAppts l) "Lab" a.time 7 = none := by
    rw [find_related_eq_none_iff]
    rintro b hb ⟨hbt, h1, h2⟩
    have hbl : b ∈ l := (sortAppts_perm l).mem_iff.mp hb
    have := hnolab b hbl hbt
    push_cast at h1 h2
    omega
  have hck : checkAppt (sortAppts l) a
      = [Violation.chemoNoLab (dateOf a.time)] := by
    unfold checkAppt chemoCheck visitCheck radCheck
    rw [hty, hnone]
    simp
  refine ⟨hck, ?_⟩
  rw [check_patient_schedule]
  rw [List.mem_dedup, List.mem_flatMap]
  exact ⟨a, (sortAppts_perm l).mem_iff.mpr hmem, by rw [hck]; simp⟩

/-- Witness for C3: a lone Chemo at noon of day 0, with a Lab eight days
later (outside the 7-day window), gets exactly the no-Lab flag. -/
theorem chemo_no_lab_flag_witness :
    checkAppt (sortAppts [⟨5, "s", "Chemo", 720⟩, ⟨5, "s", "Lab", 12240⟩])
        ⟨5, "s", "Chemo", 720⟩ = [Violation.chemoNoLab 0] ∧
      Violation.chemoNoLab 0 ∈
        check_patient_schedule [⟨5, "s", "Chemo", 720⟩, ⟨5, "s", "Lab", 12240⟩] :=
  chemo_no_lab_flag (by decide) rfl (by decide)

/-- C10: a Radiation Therapy appointment with no CT Simulation within 14
days in either direction contributes no flag at all: unlike the Chemo
rule, a missing related appointment is not itself a violation here. -/
theorem radiation_no_sim_no_flag {l : List Appt} {a : Appt}
    (hty : a.ty = "Radiation Therapy")
    (hnosim : ∀ b ∈ l, b.ty = "CT Simulation" →
      b.time < a.time - 14 * 1440 ∨ a.time + 14 * 1440 < b.time) :
    checkAppt (sortAppts l) a = [] := by
  have hnone : find_related_appointment (sortAppts l) "CT Simulation"
      a.time 14 = none := by
    rw [find_related_eq_none_iff]
    rintro b hb ⟨hbt, h1, h2⟩
    have hbl : b ∈ l := (sortAppts_perm l).mem_iff.mp hb
    have := hnosim b hbl hbt
    push_cast at h1 h2
    omega
  unfold checkAppt chemoCheck visitCheck radCheck
  rw [hty, hnone]
  simp

/-- Witness for C10: a Radiation Therapy at noon of day 20 with a CT
Simulation on day 0 (outside the 14-day window) contributes no flag. -/
theorem radiation_no_sim_no_flag_witness :
    checkAppt (sortAppts [⟨5, "s", "CT Simulation", 0⟩,
        ⟨5, "s", "Radiation Therapy", 29520⟩])
      ⟨5, "s", "Radiation Therapy", 29520⟩ = [] :=
  radiation_no_sim_no_flag rfl (by decide)

/-- C4: mutual exclusion of the two conditional flags of a rule.  When the
related Mammogram of an Oncology Visit is found and is strictly later, the
rule evaluation yields only the order flag — the too-soon timing flag is
not raised even if the calendar-date gap is also below 2 — and the Chemo
rule behaves analogously for its order and same-day flags. -/
theorem rule_mutual_exclusion :
    (∀ (df : List Appt) (a : Appt), a.ty = "Oncology Visit" →
      ∀ mamT, find_related_appointment df "Mammogram" a.time 14 = some mamT →
      mamT > a.time →
      checkAppt df a
        = [Violation.visitBeforeMammo (dateOf a.time) (dateOf mamT)]) ∧
    (∀ (df : List Appt) (a : Appt), a.ty = "Chemo" →
      ∀ labT, find_related_appointment df "Lab" a.time 7 = some labT →
      labT > a.time →
      checkAppt df a
        = [Violation.labAfterChemo (dateOf labT) (dateOf a.time)]) := by
  constructor
  · intro df a hty mamT hfind hgt
    unfold checkAppt chemoCheck visitCheck radCheck
    rw [hty, hfind]
    simp [hgt]
  · intro df a hty labT hfind hgt
    unfold checkAppt chemoCheck visitCheck radCheck
    rw [hty, hfind]
    simp [hgt]

/-- Witness for C4: a visit one hour before its mammogram (same calendar
date, so the 2-day gap condition also holds) gets only the order flag, and
a chemo one hour before its lab (same date) gets only its order flag. -/
theorem rule_mutual_exclusion_witness :
    checkAppt [⟨1, "s", "Oncology Visit", 0⟩, ⟨1, "s", "Mammogram", 60⟩]
        ⟨1, "s", "Oncology Visit", 0⟩
      = [Violation.visitBeforeMammo (dateOf 0) (dateOf 60)] ∧
    checkAppt [⟨1, "s", "Chemo", 0⟩, ⟨1, "s", "Lab", 60⟩]
        ⟨1, "s", "Chemo", 0⟩
      = [Violation.labAfterChemo (dateOf 60) (dateOf 0)] :=
  ⟨rule_mutual_exclusion.1 _ _ rfl 60 (by decide) (by decide),
   rule_mutual_exclusion.2 _ _ rfl 60 (by decide) (by decide)⟩

/-- Counterexample for C1 as stated: a Lab and a Chemo on the identical
calendar date (day 0), with the Lab later in the day (14:00 vs 09:00),
produce the Lab-after-Chemo order flag and not the same-day timing flag —
the claimed insensitivity to time-of-day fails. -/
theorem same_date_lab_after_chemo_cex :
    check_patient_schedule [⟨5, "s", "Lab", 840⟩, ⟨5, "s", "Chemo", 540⟩]
        = [Violation.labAfterChemo 0 0] ∧
      dateOf 840 = dateOf 540 ∧
      Violation.labSameDay 0 0 ∉
        check_patient_schedule [⟨5, "s", "Lab", 840⟩, ⟨5, "s", "Chemo", 540⟩] := by
  decide

/-- C1 (amended): for a single-patient set of one Lab and one Chemo on the
identical calendar date, with the Lab's timestamp not after the Chemo's,
the validator returns exactly the same-day timing flag — in particular
neither the no-Lab flag nor the Lab-after-Chemo flag — regardless of the
times of day.  (When the Lab's timestamp is strictly after the Chemo's,
the order flag fires instead; see the counterexample.) -/
theorem same_date_lab_chemo_flag {m1 m2 : Nat} {s1 s2 : String} {t1 t2 : Int}
    (hd : dateOf t1 = dateOf t2) (hle : t1 ≤ t2) :
    check_patient_schedule [⟨m1, s1, "Lab", t1⟩, ⟨m2, s2, "Chemo", t2⟩]
      = [Violation.labSameDay (dateOf t1) (dateOf t2)] := by
  have hgap := sameDate_gap_lt hd
  have hsort : sortAppts [⟨m1, s1, "Lab", t1⟩, ⟨m2, s2, "Chemo", t2⟩]
      = [⟨m1, s1, "Lab", t1⟩, ⟨m2, s2, "Chemo", t2⟩] := by
    simp [sortAppts, List.insertionSort, List.orderedInsert, apptLE, hle]
  have hcA : isCandidate "Lab" t2 7 ⟨m1, s1, "Lab", t1⟩ = true := by
    rw [isCandidate_iff]
    refine ⟨rfl, ?_, ?_⟩ <;> push_cast <;> omega
  have hfind : find_related_appointment
      [⟨m1, s1, "Lab", t1⟩, ⟨m2, s2, "Chemo", t2⟩] "Lab" t2 7 = some t1 := by
    rw [find_related_appointment]
    rw [List.filter_cons_of_pos hcA]
    simp [isCandidate]
  rw [check_patient_schedule, hsort]
  have hlab : checkAppt [⟨m1, s1, "Lab", t1⟩, ⟨m2, s2, "Chemo", t2⟩]
      ⟨m1, s1, "Lab", t1⟩ = [] := by
    unfold checkAppt chemoCheck visitCheck radCheck
    simp
  have hchemo : checkAppt [⟨m1, s1, "Lab", t1⟩, ⟨m2, s2, "Chemo", t2⟩]
      ⟨m2, s2, "Chemo", t2⟩ = [Violation.labSameDay (dateOf t1) (dateOf t2)] := by
    unfold checkAppt chemoCheck visitCheck radCheck
    rw [show (⟨m2, s2, "Chemo", t2⟩ : Appt).time = t2 from rfl] at *
    rw [hfind]
    have hngt : ¬ t1 > t2 := not_lt.mpr hle
    simp [hngt, hd]
  simp [hlab, hchemo]

/-- Witness for C1 (amended): Lab at 09:00 and Chemo at 14:00 of day 0
yield exactly the same-day flag. -/
theorem same_date_lab_chemo_flag_witness :
    check_patient_schedule [⟨5, "s", "Lab", 540⟩, ⟨5, "s", "Chemo", 840⟩]
      = [Violation.labSameDay (dateOf 540) (dateOf 840)] :=
  same_date_lab_chemo_flag (by decide) (by decide)

/-- Counterexample for C2 as stated: on an input whose rows are not in
chronological order, `find_related_appointment` returns the first row in
presentation order (timestamp 1440), although an in-window candidate with
the strictly lower timestamp 0 is present — so it does not always return
the lowest-timestamp candidate. -/
theorem find_related_lowest_cex :
    find_related_appointment [⟨5, "s", "Lab", 1440⟩, ⟨5, "s", "Lab", 0⟩]
        "Lab" 720 7 = some 1440 ∧
      (⟨5, "s", "Lab", 0⟩ : Appt) ∈
        ([⟨5, "s", "Lab", 1440⟩, ⟨5, "s", "Lab", 0⟩] : List Appt) ∧
      isCandidate "Lab" 720 7 ⟨5, "s", "Lab", 0⟩ = true ∧
      (0 : Int) < 1440 := by
  decide

theorem find_related_min_of_sorted {df : List Appt} (hs : df.Sorted apptLE)
    {ty : String} {base : Int} {w : Nat} {t : Int}
    (hf : find_related_appointment df ty base w = some t) :
    ∀ a ∈ df, isCandidate ty base w a = true → t ≤ a.time := by
  intro a ha hc
  rw [find_related_appointment] at hf
  have hsf : (df.filter (isCandidate ty base w)).Sorted apptLE := hs.filter _
  have haf : a ∈ df.filter (isCandidate ty base w) :=
    List.mem_filter.mpr ⟨ha, hc⟩
  cases hfe : df.filter (isCandidate ty base w) with
  | nil =>
    rw [hfe] at haf
    simp at haf
  | cons c rest =>
    rw [hfe] at hf haf hsf
    have hct : c.time = t := by simpa using hf
    rcases List.mem_cons.mp haf with h | h
    · rw [← hct, h]
    · have hca : apptLE c a := (List.sorted_cons.mp hsf).1 a h
      rw [← hct]
      exact hca

/-- C2 (amended): `find_related_appointment` is a pure query returning the
timestamp of the first appointment in input-row order whose type matches
and whose timestamp lies in the closed window
`[reference - w days, reference + w days]`; it returns `none` exactly when
no appointment of that type lies in the window, any value it returns is
the timestamp of such an in-window appointment of that type, and when the
input rows are sorted ascending by timestamp — as at every call site — the
returned timestamp is the lowest among the candidates.  (On unsorted input
the lowest-candidate description fails; see the counterexample.) -/
theorem find_related_appointment_spec (df : List Appt) (ty : String)
    (base : Int) (w : Nat) :
    (find_related_appointment df ty base w
        = (df.find? (isCandidate ty base w)).map (·.time)) ∧
    (find_related_appointment df ty base w = none ↔
      ∀ a ∈ df, ¬(a.ty = ty ∧ base - (w : Int) * 1440 ≤ a.time ∧
        a.time ≤ base + (w : Int) * 1440)) ∧
    (∀ t, find_related_appointment df ty base w = some t →
      ∃ a ∈ df, a.ty = ty ∧ base - (w : Int) * 1440 ≤ a.time ∧
        a.time ≤ base + (w : Int) * 1440 ∧ a.time = t) ∧
    (df.Sorted apptLE → ∀ t, find_related_appointment df ty base w = some t →
      ∀ a ∈ df, a.ty = ty → base - (w : Int) * 1440 ≤ a.time →
        a.time ≤ base + (w : Int) * 1440 → t ≤ a.time) := by
  refine ⟨find_related_eq_find? df ty base w,
    find_related_eq_none_iff df ty base w,
    fun t ht => find_related_mem df ty base w t ht,
    fun hs t ht a ha h1 h2 h3 => ?_⟩
  exact find_related_min_of_sorted hs ht a ha
    ((isCandidate_iff ty base w a).mpr ⟨h1, h2, h3⟩)

/-- Witness for C2 (amended), on the two-Lab single-patient set sorted
ascending by timestamp with reference 720 and window 7: the lookup agrees
with the first-match description, the returned timestamp 0 belongs to an
in-window Lab row, and it is minimal among the candidates — here at the
candidate with timestamp 1440. -/
theorem find_related_appointment_spec_witness :
    (find_related_appointment [⟨5, "s", "Lab", 0⟩, ⟨5, "s", "Lab", 1440⟩]
        "Lab" 720 7
      = (List.find? (isCandidate "Lab" 720 7)
          [⟨5, "s", "Lab", 0⟩, ⟨5, "s", "Lab", 1440⟩]).map (·.time)) ∧
    (∃ a ∈ ([⟨5, "s", "Lab", 0⟩, ⟨5, "s", "Lab", 1440⟩] : List Appt),
      a.ty = "Lab" ∧ 720 - ((7 : Nat) : Int) * 1440 ≤ a.time ∧
        a.time ≤ 720 + ((7 : Nat) : Int) * 1440 ∧ a.time = 0) ∧
    (0 : Int) ≤ (1440 : Int) :=
  ⟨(find_related_appointment_spec [⟨5, "s", "Lab", 0⟩, ⟨5, "s", "Lab", 1440⟩]
      "Lab" 720 7).1,
   (find_related_appointment_spec [⟨5, "s", "Lab", 0⟩, ⟨5, "s", "Lab", 1440⟩]
      "Lab" 720 7).2.2.1 0 (by decide),
   (find_related_appointment_spec [⟨5, "s", "Lab", 0⟩, ⟨5, "s", "Lab", 1440⟩]
      "Lab" 720 7).2.2.2 (by decide) 0 (by decide)
     ⟨5, "s", "Lab", 1440⟩ (by decide) rfl (by decide) (by decide)⟩
